import Mathlib

/-!
Shallow embedding of the Intel x520 EEPROM patcher script (src/patch.py).

The script is a single linear module-level program.  We model it as a pure
function from an environment (command-line argument, contents of the two
sysfs attribute files, and the result of the external ethtool read
invocation) to a run result: the process exit code, the ordered list of
EEPROM-accessor invocations, and the lines printed to standard output.

Python-runtime facts baked into the model:
  - an uncaught exception (subprocess.CalledProcessError or
    FileNotFoundError from check_output, IndexError from [-1] on an empty
    list, ValueError from int(val, 16), NameError from an undefined
    new_val) terminates the process with exit code 1;
  - a parenthesized single string such as ("0x8086") is not a tuple, so
    the membership test `vdr_id not in ("0x8086")` at line 45 is a
    substring test on the string "0x8086";
  - str.strip() removes leading and trailing whitespace, str.split with no
    separator splits on whitespace runs and drops empty pieces;
  - the return value of os.system at line 68 is discarded, so the write
    invocation has no influence on the exit code.
int(s, 16) is modelled for the forms that occur here: an optional 0x / 0X
marker followed by hexadecimal digits (no sign, no underscores); all other
token shapes are modelled as a parse failure.
-/

namespace X520

/-! ### Python string primitives -/

/-- Characters treated as whitespace by str.strip and str.split. -/
def isPyWs (c : Char) : Bool :=
  c == ' ' || c == '\t' || c == '\n' || c == '\r' || c == '\x0b' || c == '\x0c'

/-- Python str.strip(): remove leading and trailing whitespace. -/
def pyStrip (s : String) : String :=
  String.mk (((s.data.dropWhile isPyWs).reverse.dropWhile isPyWs).reverse)

/-- Splitting on the newline separator, keeping empty pieces, as
str.split("\n") does; `cur` accumulates the current piece reversed. -/
def splitNlAux (cur : List Char) : List Char → List (List Char)
  | [] => [cur.reverse]
  | c :: cs =>
    if c == '\n' then cur.reverse :: splitNlAux [] cs
    else splitNlAux (c :: cur) cs

/-- Python str.split("\n") on strings. -/
def pySplitNl (s : String) : List String :=
  (splitNlAux [] s.data).map String.mk

/-- Splitting on whitespace runs, dropping empty pieces, as str.split()
with no separator does; `cur` accumulates the current token reversed. -/
def wsTokensAux (cur : List Char) : List Char → List (List Char)
  | [] => if cur.isEmpty then [] else [cur.reverse]
  | c :: cs =>
    if isPyWs c then
      if cur.isEmpty then wsTokensAux [] cs
      else cur.reverse :: wsTokensAux [] cs
    else wsTokensAux (c :: cur) cs

/-- Python str.split() with no separator on strings. -/
def pySplitWs (s : String) : List String :=
  (wsTokensAux [] s.data).map String.mk

/-- Does the character list `pre` begin the character list `l`? -/
def charsStart : List Char → List Char → Bool
  | [], _ => true
  | _ :: _, [] => false
  | c :: cs, d :: ds => c == d && charsStart cs ds

/-- Occurrence of `needle` anywhere in `haystack`. -/
def charsContain (needle : List Char) : List Char → Bool
  | [] => charsStart needle []
  | d :: ds => charsStart needle (d :: ds) || charsContain needle ds

/-- Python substring membership `needle in haystack` on strings. -/
def pyInStr (needle haystack : String) : Bool :=
  charsContain needle.data haystack.data

/-- Value of one hexadecimal digit character, if it is one. -/
def hexDigitVal (c : Char) : Option Nat :=
  if '0' ≤ c && c ≤ '9' then some (c.toNat - 48)
  else if 'a' ≤ c && c ≤ 'f' then some (c.toNat - 87)
  else if 'A' ≤ c && c ≤ 'F' then some (c.toNat - 55)
  else none

/-- Fold a nonempty list of hexadecimal digit characters to a number. -/
def hexDigitsVal (cs : List Char) : Option Nat :=
  if cs.isEmpty then none
  else cs.foldl (fun acc c => acc.bind (fun a => (hexDigitVal c).map (fun d => 16 * a + d)))
    (some 0)

/-- int(s, 16) for the non-negative underscore-free forms: optional 0x or
0X marker, then hexadecimal digits.  none models a ValueError. -/
def parsePyIntHex (s : String) : Option Nat :=
  match s.data with
  | '0' :: 'x' :: rest => hexDigitsVal rest
  | '0' :: 'X' :: rest => hexDigitsVal rest
  | cs => hexDigitsVal cs

/-- Python hex(n) for non-negative n (lowercase digits). -/
def pyHex (n : Nat) : String :=
  "0x" ++ String.mk (Nat.toDigits 16 n)

/-- Python bin(n) for non-negative n. -/
def pyBin (n : Nat) : String :=
  "0b" ++ String.mk (Nat.toDigits 2 n)

/-! ### The script, line by line -/

/-- Line 45: `vdr_id not in ("0x8086") or dev_id not in ("0x10fb", "0x154d")`.
The first test is substring containment in the string "0x8086" because the
parenthesized single string is not a tuple; the second is equality against
either member of a genuine pair. -/
def unrecognizedGuard (vdr_id dev_id : String) : Bool :=
  !(pyInStr vdr_id "0x8086") || (!(dev_id == "0x10fb") && !(dev_id == "0x154d"))

/-- The device recognizer: the negation of the line-45 guard. -/
def recognized (vdr_id dev_id : String) : Bool :=
  !(unrecognizedGuard vdr_id dev_id)

/-- Line 53: `output.strip().split("\n")[-1].split()[-1]`.
none models the IndexError raised by [-1] on an empty token list. -/
def extractToken (output : String) : Option String :=
  ((pySplitNl (pyStrip output)).getLast?).bind (fun line => (pySplitWs line).getLast?)

/-- The two policy branches at lines 57 and 60. -/
inductive PatchDecision where
  | alreadyUnlocked
  | needsPatch
deriving DecidableEq

/-- Line 57 `val_bin & 0b00000001 == 1` and line 60 `val_bin & 0b00000001 == 0`
as a pair of sequential guards; none is the (unreachable) case in which
neither guard fires and new_val stays undefined. -/
def decision (val_bin : Nat) : Option PatchDecision :=
  if val_bin &&& 1 == 1 then some PatchDecision.alreadyUnlocked
  else if val_bin &&& 1 == 0 then some PatchDecision.needsPatch
  else none

/-- Line 61: `new_val = val_bin | 0b00000001`. -/
def patch (val_bin : Nat) : Nat :=
  val_bin ||| 1

/-- Line 64: `magic = "%s%s" % (dev_id, vdr_id[2:])`; the slice [2:]
drops the first two characters. -/
def magic (dev_id vdr_id : String) : String :=
  dev_id ++ String.mk (vdr_id.data.drop 2)

/-- One invocation of the external EEPROM accessor (ethtool). -/
inductive Event where
  /-- Line 50: `ethtool -e intf offset 0x58 length 1`. -/
  | readEeprom (intf offset length : String)
  /-- Line 68: `ethtool -E intf magic m offset 0x58 value hex(v) length 1`
  run through os.system. -/
  | writeEeprom (intf m offset : String) (value : Nat) (length : Nat)
deriving DecidableEq

/-- Is this event the EEPROM write? -/
def Event.isWrite : Event → Bool
  | Event.readEeprom _ _ _ => false
  | Event.writeEeprom _ _ _ _ _ => true

/-- Inputs of one run: argv, the two sysfs attribute files (none models an
IOError on either open or read), the outcome of the ethtool -e invocation
(error models a subprocess.CalledProcessError or FileNotFoundError), and
the status os.system would return for the write (discarded by the script). -/
structure Env where
  progName : String
  arg : Option String
  vendorFile : Option String
  deviceFile : Option String
  readResult : Except Unit String
  writeExit : Int

/-- Observable outcome of one run: process exit code, accessor invocations
in order, lines printed to standard output in order. -/
structure RunResult where
  exitCode : Nat
  events : List Event
  stdout : List String
deriving DecidableEq

/-- The ethtool -e read invocation for interface `intf` (line 50). -/
def readEv (intf : String) : Event :=
  Event.readEeprom intf "0x58" "1"

/-- repr of the cmd list built at line 65, as printed by line 66. -/
def cmdRepr (intf m : String) (nv : Nat) : String :=
  "[\x27ethtool\x27, \x27-E\x27, \x27" ++ intf ++ "\x27, \x27magic\x27, \x27" ++ m
    ++ "\x27, \x27offset\x27, \x270x58\x27, \x27value\x27, \x27" ++ pyHex nv
    ++ "\x27, \x27length\x27, 1]"

/-- Line 33: `print("%s <interface>" % sys.argv[0])`. -/
def usageLine (progName : String) : String :=
  progName ++ " <interface>"

/-- Line 55: the value report printed before the policy branches. -/
def valueLine (val : String) (val_bin : Nat) : String :=
  "EEPROM Value at 0x58 is 0x" ++ val ++ " (" ++ pyBin val_bin ++ ")"

/-- The whole script as a function from inputs to the observable outcome. -/
def run (env : Env) : RunResult :=
  match env.arg with
  | none =>
    -- lines 31-34: IndexError on sys.argv[1], usage, sys.exit(255)
    ⟨255, [], [usageLine env.progName]⟩
  | some intf =>
    match env.vendorFile, env.deviceFile with
    | some vRaw, some dRaw =>
      -- lines 37-41: both attribute files read and stripped
      let vdr_id := pyStrip vRaw
      let dev_id := pyStrip dRaw
      if unrecognizedGuard vdr_id dev_id then
        -- lines 45-47
        ⟨3, [], ["Not a recognized Intel x520 card."]⟩
      else
        match env.readResult with
        | Except.error _ =>
          -- line 50 raised; uncaught exception exits with code 1
          ⟨1, [readEv intf], []⟩
        | Except.ok output =>
          match extractToken output with
          | none =>
            -- line 53 IndexError; uncaught, exit code 1
            ⟨1, [readEv intf], []⟩
          | some val =>
            match parsePyIntHex val with
            | none =>
              -- line 54 ValueError; uncaught, exit code 1
              ⟨1, [readEv intf], []⟩
            | some val_bin =>
              match decision val_bin with
              | some PatchDecision.alreadyUnlocked =>
                -- lines 57-58: report and exit(1)
                ⟨1, [readEv intf],
                  [valueLine val val_bin,
                   "Card is already unlocked for all SFP modules. Nothing to do."]⟩
              | some PatchDecision.needsPatch =>
                -- lines 60-69: compute, report, write, report
                let new_val := patch val_bin
                let m := magic dev_id vdr_id
                ⟨0,
                 [readEv intf, Event.writeEeprom intf m "0x58" new_val 1],
                 [valueLine val val_bin,
                  "Card is locked to Intel only SFP modules. Patching EEPROM...",
                  "New EEPROM Value at 0x58 will be " ++ pyHex new_val ++ " ("
                    ++ pyBin new_val ++ ")",
                  "Running " ++ cmdRepr intf m new_val,
                  "Reboot the machine for changes to take effect..."]⟩
              | none =>
                -- neither guard fired: new_val undefined, NameError at
                -- line 65; uncaught, exit code 1
                ⟨1, [readEv intf], [valueLine val val_bin]⟩
    | _, _ =>
      -- lines 42-44: IOError caught, exit code 2
      ⟨2, [], ["Can\x27t read interface data."]⟩

/-- The byte value the script would parse from the read invocation. -/
def readValue? (env : Env) : Option Nat :=
  match env.readResult with
  | Except.error _ => none
  | Except.ok output => (extractToken output).bind parsePyIntHex

/-! ### Concrete environments used to instantiate the theorems -/

/-- A recognized 0x8086/0x10fb card whose byte at 0x58 reads 0x00, with a
failing os.system status (512) for the write invocation. -/
def envA : Env :=
  { progName := "./patch.py", arg := some "eth4",
    vendorFile := some "0x8086\n", deviceFile := some "0x10fb\n",
    readResult := Except.ok "Offset\x09\x09Values\n------\x09\x09------\n0x0058:\x09\x0900 ",
    writeExit := 512 }

/-- A recognized 0x8086/0x154d card whose byte at 0x58 reads 0x07. -/
def envB : Env :=
  { progName := "./patch.py", arg := some "eth4",
    vendorFile := some "0x8086\n", deviceFile := some "0x154d\n",
    readResult := Except.ok "Offset\x09\x09Values\n------\x09\x09------\n0x0058:\x09\x0907 ",
    writeExit := 0 }

/-- A recognized card whose ethtool read invocation fails. -/
def envReadErr : Env :=
  { progName := "./patch.py", arg := some "eth4",
    vendorFile := some "0x8086\n", deviceFile := some "0x10fb\n",
    readResult := Except.error (), writeExit := 0 }

/-- A run started without the interface argument. -/
def envNoArg : Env :=
  { progName := "./patch.py", arg := none,
    vendorFile := some "0x8086\n", deviceFile := some "0x10fb\n",
    readResult := Except.error (), writeExit := 0 }

/-- A run whose device attribute files cannot be read. -/
def envNoFiles : Env :=
  { progName := "./patch.py", arg := some "eth4",
    vendorFile := none, deviceFile := none,
    readResult := Except.error (), writeExit := 0 }

/-- A run against an unrecognized device id (0x10c6). -/
def envUnrec : Env :=
  { progName := "./patch.py", arg := some "eth4",
    vendorFile := some "0x8086\n", deviceFile := some "0x10c6\n",
    readResult := Except.error (), writeExit := 0 }

/-- A recognized card whose read reports the out-of-range odd value 0x101. -/
def env257 : Env :=
  { progName := "./patch.py", arg := some "eth4",
    vendorFile := some "0x8086\n", deviceFile := some "0x10fb\n",
    readResult := Except.ok "Offset\x09\x09Values\n------\x09\x09------\n0x0058:\x09\x09101 ",
    writeExit := 0 }

/-- A recognized card whose read reports the out-of-range even value 0x100. -/
def env256 : Env :=
  { progName := "./patch.py", arg := some "eth4",
    vendorFile := some "0x8086\n", deviceFile := some "0x10fb\n",
    readResult := Except.ok "Offset\x09\x09Values\n------\x09\x09------\n0x0058:\x09\x09100 ",
    writeExit := 0 }

/-! ### Helper lemmas about the bit operations -/

lemma and_one_cases (b : Nat) : b &&& 1 = 0 ∨ b &&& 1 = 1 := by
  rw [Nat.and_one_is_mod]; omega

lemma patch_and_one (b : Nat) : patch b &&& 1 = 1 := by
  rw [Nat.and_one_is_mod]
  have h : (b ||| 1).testBit 0 = true := by
    rw [Nat.testBit_or]; simp
  rw [Nat.testBit_zero] at h
  exact of_decide_eq_true h

lemma lor_one_of_even (b : Nat) (h : b &&& 1 = 0) : b ||| 1 = b + 1 := by
  rw [Nat.and_one_is_mod] at h
  apply Nat.eq_of_testBit_eq
  intro i
  cases i with
  | zero =>
    rw [Nat.testBit_or, Nat.testBit_zero, Nat.testBit_zero, Nat.testBit_zero]
    have h1 : (b + 1) % 2 = 1 := by omega
    have h2 : ¬ (b % 2 = 1) := by omega
    simp [h1, h2]
  | succ j =>
    rw [Nat.testBit_or, Nat.testBit_succ, Nat.testBit_succ, Nat.testBit_succ]
    have h2 : (1 : Nat) / 2 = 0 := rfl
    have h3 : (b + 1) / 2 = b / 2 := by omega
    rw [h2, h3, Nat.zero_testBit, Bool.or_false]

lemma patch_frame (b : Nat) : patch b &&& 254 = b &&& 254 := by
  apply Nat.eq_of_testBit_eq
  intro i
  rw [Nat.testBit_and, Nat.testBit_and]
  cases i with
  | zero =>
    have h : Nat.testBit 254 0 = false := by decide
    simp [h]
  | succ j =>
    have h : patch b = b ||| 1 := rfl
    rw [h, Nat.testBit_or]
    have h1 : Nat.testBit 1 (j + 1) = false := by
      rw [Nat.testBit_succ]
      have h2 : (1 : Nat) / 2 = 0 := rfl
      rw [h2, Nat.zero_testBit]
    rw [h1, Bool.or_false]

lemma decision_already (b : Nat) :
    decision b = some PatchDecision.alreadyUnlocked ↔ b &&& 1 = 1 := by
  rcases and_one_cases b with h | h <;> simp [decision, h]

lemma decision_needs (b : Nat) :
    decision b = some PatchDecision.needsPatch ↔ b &&& 1 = 0 := by
  rcases and_one_cases b with h | h <;> simp [decision, h]

lemma decision_isSome (b : Nat) : (decision b).isSome = true := by
  rcases and_one_cases b with h | h <;> simp [decision, h]

/-! ### Helper lemmas: the run on each control path -/

lemma run_arg_none (env : Env) (h : env.arg = none) :
    run env = ⟨255, [], [usageLine env.progName]⟩ := by
  simp only [run, h]

lemma run_ident_fail (env : Env) (intf : String) (h : env.arg = some intf)
    (h2 : env.vendorFile = none ∨ env.deviceFile = none) :
    run env = ⟨2, [], ["Can\x27t read interface data."]⟩ := by
  rcases h2 with h2 | h2
  · simp only [run, h, h2]
  · cases hv : env.vendorFile <;> simp only [run, h, h2, hv]

lemma run_unrecognized (env : Env) (intf vRaw dRaw : String)
    (h : env.arg = some intf) (h2 : env.vendorFile = some vRaw)
    (h3 : env.deviceFile = some dRaw)
    (h4 : unrecognizedGuard (pyStrip vRaw) (pyStrip dRaw) = true) :
    run env = ⟨3, [], ["Not a recognized Intel x520 card."]⟩ := by
  simp only [run, h, h2, h3, h4, if_true]

lemma run_read_error (env : Env) (intf vRaw dRaw : String)
    (h : env.arg = some intf) (h2 : env.vendorFile = some vRaw)
    (h3 : env.deviceFile = some dRaw)
    (h4 : unrecognizedGuard (pyStrip vRaw) (pyStrip dRaw) = false)
    (h5 : env.readResult = Except.error ()) :
    run env = ⟨1, [readEv intf], []⟩ := by
  simp only [run, h, h2, h3, h4, h5, Bool.false_eq_true, if_false]

lemma run_token_fail (env : Env) (intf vRaw dRaw out : String)
    (h : env.arg = some intf) (h2 : env.vendorFile = some vRaw)
    (h3 : env.deviceFile = some dRaw)
    (h4 : unrecognizedGuard (pyStrip vRaw) (pyStrip dRaw) = false)
    (h5 : env.readResult = Except.ok out)
    (h6 : extractToken out = none) :
    run env = ⟨1, [readEv intf], []⟩ := by
  simp only [run, h, h2, h3, h4, h5, h6, Bool.false_eq_true, if_false]

lemma run_intparse_fail (env : Env) (intf vRaw dRaw out tok : String)
    (h : env.arg = some intf) (h2 : env.vendorFile = some vRaw)
    (h3 : env.deviceFile = some dRaw)
    (h4 : unrecognizedGuard (pyStrip vRaw) (pyStrip dRaw) = false)
    (h5 : env.readResult = Except.ok out)
    (h6 : extractToken out = some tok)
    (h7 : parsePyIntHex tok = none) :
    run env = ⟨1, [readEv intf], []⟩ := by
  simp only [run, h, h2, h3, h4, h5, h6, h7, Bool.false_eq_true, if_false]

lemma run_already (env : Env) (intf vRaw dRaw out tok : String) (b : Nat)
    (h : env.arg = some intf) (h2 : env.vendorFile = some vRaw)
    (h3 : env.deviceFile = some dRaw)
    (h4 : unrecognizedGuard (pyStrip vRaw) (pyStrip dRaw) = false)
    (h5 : env.readResult = Except.ok out)
    (h6 : extractToken out = some tok)
    (h7 : parsePyIntHex tok = some b)
    (h8 : b &&& 1 = 1) :
    run env = ⟨1, [readEv intf],
      [valueLine tok b,
       "Card is already unlocked for all SFP modules. Nothing to do."]⟩ := by
  have hd : decision b = some PatchDecision.alreadyUnlocked := (decision_already b).mpr h8
  simp only [run, h, h2, h3, h4, h5, h6, h7, hd, Bool.false_eq_true, if_false]

lemma run_patch_path (env : Env) (intf vRaw dRaw out tok : String) (b : Nat)
    (h : env.arg = some intf) (h2 : env.vendorFile = some vRaw)
    (h3 : env.deviceFile = some dRaw)
    (h4 : unrecognizedGuard (pyStrip vRaw) (pyStrip dRaw) = false)
    (h5 : env.readResult = Except.ok out)
    (h6 : extractToken out = some tok)
    (h7 : parsePyIntHex tok = some b)
    (h8 : b &&& 1 = 0) :
    (run env).exitCode = 0 ∧
    (run env).events = [readEv intf,
      Event.writeEeprom intf (magic (pyStrip dRaw) (pyStrip vRaw)) "0x58" (patch b) 1] := by
  have hd : decision b = some PatchDecision.needsPatch := (decision_needs b).mpr h8
  simp only [run, h, h2, h3, h4, h5, h6, h7, hd, Bool.false_eq_true, if_false]
  exact ⟨trivial, trivial⟩

/-- Exhaustive description of the possible outcomes of a run: an abort
before any accessor invocation (codes 255, 2, 3), a stop after the read
invocation with exit code 1, or the full patch path ending in the write. -/
lemma run_shape (env : Env) :
    ((run env).events = [] ∧
       ((run env).exitCode = 255 ∨ (run env).exitCode = 2 ∨ (run env).exitCode = 3)) ∨
    (∃ intf, env.arg = some intf ∧ (run env).events = [readEv intf] ∧
       (run env).exitCode = 1) ∨
    (∃ intf vRaw dRaw b, env.arg = some intf ∧ env.vendorFile = some vRaw ∧
       env.deviceFile = some dRaw ∧ readValue? env = some b ∧ b &&& 1 = 0 ∧
       (run env).events = [readEv intf,
         Event.writeEeprom intf (magic (pyStrip dRaw) (pyStrip vRaw)) "0x58" (patch b) 1] ∧
       (run env).exitCode = 0) := by
  cases harg : env.arg with
  | none =>
    left
    rw [run_arg_none env harg]
    exact ⟨rfl, Or.inl rfl⟩
  | some intf =>
    cases hvf : env.vendorFile with
    | none =>
      left
      rw [run_ident_fail env intf harg (Or.inl hvf)]
      exact ⟨rfl, Or.inr (Or.inl rfl)⟩
    | some vRaw =>
      cases hdf : env.deviceFile with
      | none =>
        left
        rw [run_ident_fail env intf harg (Or.inr hdf)]
        exact ⟨rfl, Or.inr (Or.inl rfl)⟩
      | some dRaw =>
        cases hg : unrecognizedGuard (pyStrip vRaw) (pyStrip dRaw) with
        | true =>
          left
          rw [run_unrecognized env intf vRaw dRaw harg hvf hdf hg]
          exact ⟨rfl, Or.inr (Or.inr rfl)⟩
        | false =>
          cases hrr : env.readResult with
          | error u =>
            cases u
            right; left
            rw [run_read_error env intf vRaw dRaw harg hvf hdf hg hrr]
            exact ⟨intf, rfl, rfl, rfl⟩
          | ok out =>
            cases het : extractToken out with
            | none =>
              right; left
              rw [run_token_fail env intf vRaw dRaw out harg hvf hdf hg hrr het]
              exact ⟨intf, rfl, rfl, rfl⟩
            | some tok =>
              cases hpv : parsePyIntHex tok with
              | none =>
                right; left
                rw [run_intparse_fail env intf vRaw dRaw out tok harg hvf hdf hg hrr het hpv]
                exact ⟨intf, rfl, rfl, rfl⟩
              | some b =>
                rcases and_one_cases b with h8 | h8
                · right; right
                  obtain ⟨he, hev⟩ :=
                    run_patch_path env intf vRaw dRaw out tok b harg hvf hdf hg hrr het hpv h8
                  refine ⟨intf, vRaw, dRaw, b, rfl, rfl, rfl, ?_, h8, hev, he⟩
                  simp [readValue?, hrr, het, hpv]
                · right; left
                  rw [run_already env intf vRaw dRaw out tok b harg hvf hdf hg hrr het hpv h8]
                  exact ⟨intf, rfl, rfl, rfl⟩

/-- Unpacking a successfully parsed read value into its path facts. -/
lemma readValue_elim (env : Env) (b : Nat) (h : readValue? env = some b) :
    ∃ out tok, env.readResult = Except.ok out ∧ extractToken out = some tok ∧
      parsePyIntHex tok = some b := by
  cases hrr : env.readResult with
  | error u =>
    simp only [readValue?, hrr] at h
    exact Option.noConfusion h
  | ok out =>
    simp only [readValue?, hrr, Option.bind_eq_some] at h
    obtain ⟨tok, het, hpv⟩ := h
    exact ⟨out, tok, rfl, het, hpv⟩

/-! ### The claims -/

/-- C1: the claim says the recognizer accepts exactly the pairs
(0x8086, 0x10fb) and (0x8086, 0x154d) and that no other vendor string
passes the vendor check.  The code deviates: the parenthesized single
string at line 45 makes the vendor test a substring test, so the vendor
string "8086" (among others) also passes, while the device-id test is a
genuine pair membership.  This theorem evaluates the recognizer at the
failing input and at the intended pairs. -/
theorem C1_recognizer_substring_slip :
    recognized "0x8086" "0x10fb" = true ∧
    recognized "0x8086" "0x154d" = true ∧
    recognized "0x8086" "0x10c6" = false ∧
    recognized "8086" "0x10fb" = true ∧
    ¬ ("8086" = "0x8086") := by decide

/-- C2 counterexample: a run with vendorId 0x8086 and deviceId 0x10fb that
reaches the write step authorizes it with magic "0x10fb8086", not
"10fb8086" as the claim states: the deviceId keeps its 0x prefix. -/
theorem C2_counterexample :
    envA.vendorFile.map pyStrip = some "0x8086" ∧
    envA.deviceFile.map pyStrip = some "0x10fb" ∧
    (run envA).events = [readEv "eth4",
      Event.writeEeprom "eth4" "0x10fb8086" "0x58" 1 1] ∧
    ¬ ("0x10fb8086" = "10fb8086") := by decide

/-- C2 amended: every run that reaches the write step with vendorId 0x8086
and deviceId 0x10fb authorizes the write with magic token exactly
"0x10fb8086" (the full deviceId concatenated with the vendorId suffix
after its first two characters are dropped). -/
theorem C2_magic_token (env : Env) (intf m off : String) (v l : Nat)
    (hv : env.vendorFile.map pyStrip = some "0x8086")
    (hd : env.deviceFile.map pyStrip = some "0x10fb")
    (hmem : Event.writeEeprom intf m off v l ∈ (run env).events) :
    m = "0x10fb8086" := by
  rcases run_shape env with ⟨hev, _⟩ | ⟨i, _, hev, _⟩ |
    ⟨i, vR, dR, b, _, hvf, hdf, _, _, hev, _⟩
  · rw [hev] at hmem
    exact absurd hmem (List.not_mem_nil _)
  · rw [hev] at hmem
    simp [readEv] at hmem
  · rw [hev] at hmem
    simp only [List.mem_cons, List.not_mem_nil, or_false, readEv] at hmem
    rcases hmem with hmem | hmem
    · exact absurd hmem (by simp)
    · injection hmem with e1 e2 e3 e4 e5
      rw [hvf] at hv
      rw [hdf] at hd
      simp only [Option.map_some', Option.some_inj] at hv hd
      rw [e2, hd, hv]
      rfl

/-- C2 witness: the amended magic-token theorem applied to a concrete run
that reaches the write step with vendorId 0x8086 and deviceId 0x10fb. -/
theorem C2_magic_token_witness :
    Event.writeEeprom "eth4" "0x10fb8086" "0x58" 1 1 ∈ (run envA).events ∧
    "0x10fb8086" = "0x10fb8086" :=
  ⟨by decide,
   C2_magic_token envA "eth4" "0x10fb8086" "0x58" 1 1 (by decide) (by decide) (by decide)⟩

/-- C3 counterexample: a run whose write invocation fails (os.system
status 512) still terminates with exit code 0, and replacing the write
status changes nothing about the run, so no accessor write failure is
ever propagated as a non-zero exit code. -/
theorem C3_counterexample :
    envA.writeExit = 512 ∧ (run envA).exitCode = 0 ∧
    Event.writeEeprom "eth4" "0x10fb8086" "0x58" 1 1 ∈ (run envA).events ∧
    run { envA with writeExit := 0 } = run envA := by decide

/-- C3 amended: the process exits 0 exactly when it reaches the write
step; the write accessor status is ignored entirely, and a failure of the
read accessor terminates the process with exit code 1 (the uncaught
exception code, coinciding with the already-unlocked code) rather than a
distinct propagated code. -/
theorem C3_exit_code_behavior (env : Env) :
    ((run env).exitCode = 0 ↔ ∃ e ∈ (run env).events, e.isWrite = true) ∧
    (∀ w : Int, run { env with writeExit := w } = run env) ∧
    (∀ intf vRaw dRaw, env.arg = some intf → env.vendorFile = some vRaw →
       env.deviceFile = some dRaw →
       unrecognizedGuard (pyStrip vRaw) (pyStrip dRaw) = false →
       env.readResult = Except.error () → (run env).exitCode = 1) := by
  refine ⟨?_, ?_, ?_⟩
  · rcases run_shape env with ⟨hev, hc⟩ | ⟨i, _, hev, hc⟩ |
      ⟨i, vR, dR, b, _, _, _, _, _, hev, hc⟩
    · rw [hev]
      constructor
      · intro h0
        rcases hc with hc | hc | hc <;> omega
      · rintro ⟨e, he, _⟩
        exact absurd he (List.not_mem_nil _)
    · rw [hev]
      constructor
      · intro h0; omega
      · rintro ⟨e, he, hw⟩
        simp only [List.mem_cons, List.not_mem_nil, or_false] at he
        rw [he] at hw
        exact absurd hw (by simp [readEv, Event.isWrite])
    · rw [hev, hc]
      constructor
      · intro _
        exact ⟨_, List.mem_cons_of_mem _ (List.mem_cons_self _ _), rfl⟩
      · intro _; rfl
  · obtain ⟨pn, a, vf, df, rr, we⟩ := env
    intro w
    rfl
  · intro intf vRaw dRaw h1 h2 h3 h4 h5
    rw [run_read_error env intf vRaw dRaw h1 h2 h3 h4 h5]

/-- C3 witness: the amended exit-code theorem applied to a concrete run
whose read accessor invocation fails. -/
theorem C3_exit_code_behavior_witness :
    envReadErr.readResult = Except.error () ∧ (run envReadErr).exitCode = 1 :=
  ⟨rfl, (C3_exit_code_behavior envReadErr).2.2 "eth4" "0x8086\n" "0x10fb\n"
    rfl rfl rfl (by decide) rfl⟩

/-- C4: every failing run issues no EEPROM write; an unrecognized device
aborts with no accessor invocation at all; and when the write happens it
is the last accessor invocation of a run that completes with exit 0. -/
theorem C4_write_only_on_success (env : Env) :
    ((run env).exitCode ≠ 0 → ∀ e ∈ (run env).events, e.isWrite = false) ∧
    (∀ intf vRaw dRaw, env.arg = some intf → env.vendorFile = some vRaw →
       env.deviceFile = some dRaw →
       unrecognizedGuard (pyStrip vRaw) (pyStrip dRaw) = true →
       (run env).events = [] ∧ (run env).exitCode = 3) ∧
    (∀ e ∈ (run env).events, e.isWrite = true →
       (run env).exitCode = 0 ∧ (run env).events.getLast? = some e) := by
  refine ⟨?_, ?_, ?_⟩
  · intro hne e he
    rcases run_shape env with ⟨hev, _⟩ | ⟨i, _, hev, _⟩ |
      ⟨i, vR, dR, b, _, _, _, _, _, hev, hc⟩
    · rw [hev] at he
      exact absurd he (List.not_mem_nil _)
    · rw [hev] at he
      simp only [List.mem_cons, List.not_mem_nil, or_false] at he
      rw [he]
      rfl
    · exact absurd hc hne
  · intro intf vRaw dRaw h1 h2 h3 h4
    rw [run_unrecognized env intf vRaw dRaw h1 h2 h3 h4]
    exact ⟨rfl, rfl⟩
  · intro e he hw
    rcases run_shape env with ⟨hev, _⟩ | ⟨i, _, hev, _⟩ |
      ⟨i, vR, dR, b, _, _, _, _, _, hev, hc⟩
    · rw [hev] at he
      exact absurd he (List.not_mem_nil _)
    · rw [hev] at he
      simp only [List.mem_cons, List.not_mem_nil, or_false] at he
      rw [he] at hw
      exact absurd hw (by simp [readEv, Event.isWrite])
    · rw [hev] at he
      simp only [List.mem_cons, List.not_mem_nil, or_false] at he
      rcases he with he | he
      · rw [he] at hw
        exact absurd hw (by simp [readEv, Event.isWrite])
      · rw [hev, he, hc]
        exact ⟨rfl, rfl⟩

/-- C4 witness: the theorem applied to a concrete run against an
unrecognized device id, showing the abort with no accessor invocation. -/
theorem C4_write_only_on_success_witness :
    (run envUnrec).events = [] ∧ (run envUnrec).exitCode = 3 :=
  (C4_write_only_on_success envUnrec).2.1 "eth4" "0x8086\n" "0x10c6\n"
    rfl rfl rfl (by decide)

/-- C5: for every byte value b the policy decision is AlreadyUnlocked
precisely when bit 0 of b is set, and NeedsPatch otherwise. -/
theorem C5_decision_bit0 (b : Nat) :
    (decision b = some PatchDecision.alreadyUnlocked ↔ b &&& 1 = 1) ∧
    (decision b = some PatchDecision.needsPatch ↔ ¬ (b &&& 1 = 1)) := by
  refine ⟨decision_already b, ?_⟩
  rw [decision_needs b]
  rcases and_one_cases b with h | h <;> (rw [h]; simp)

/-- C6: for every byte value with bit 0 clear, the patched value is
b OR 1 and all bits other than bit 0 are unchanged. -/
theorem C6_patch_preserves_other_bits (b : Nat) (_h : b &&& 1 = 0) :
    patch b = b ||| 0b00000001 ∧
    patch b &&& 0b11111110 = b &&& 0b11111110 :=
  ⟨rfl, patch_frame b⟩

/-- C6 witness: the patch theorem applied to the byte 0xa8. -/
theorem C6_patch_preserves_other_bits_witness :
    (168 : Nat) &&& 1 = 0 ∧
    (patch 168 = 168 ||| 0b00000001 ∧
     patch 168 &&& 0b11111110 = 168 &&& 0b11111110) :=
  ⟨by decide, C6_patch_preserves_other_bits 168 (by decide)⟩

/-- C7: a run that reads a byte with bit 0 already set terminates with
exit code 1 and issues no write invocation. -/
theorem C7_already_unlocked_no_write (env : Env) (intf vRaw dRaw : String) (b : Nat)
    (h : env.arg = some intf) (h2 : env.vendorFile = some vRaw)
    (h3 : env.deviceFile = some dRaw)
    (h4 : unrecognizedGuard (pyStrip vRaw) (pyStrip dRaw) = false)
    (h5 : readValue? env = some b) (h6 : b &&& 1 = 1) :
    (run env).exitCode = 1 ∧ (run env).events = [readEv intf] ∧
    ∀ e ∈ (run env).events, e.isWrite = false := by
  obtain ⟨out, tok, hrr, het, hpv⟩ := readValue_elim env b h5
  rw [run_already env intf vRaw dRaw out tok b h h2 h3 h4 hrr het hpv h6]
  refine ⟨rfl, rfl, ?_⟩
  intro e he
  simp only [List.mem_cons, List.not_mem_nil, or_false] at he
  rw [he]
  rfl

/-- C7 witness: the theorem applied to a 0x154d card reading byte 0x07. -/
theorem C7_already_unlocked_no_write_witness :
    readValue? envB = some 7 ∧ (7 : Nat) &&& 1 = 1 ∧
    ((run envB).exitCode = 1 ∧ (run envB).events = [readEv "eth4"] ∧
     ∀ e ∈ (run envB).events, e.isWrite = false) :=
  ⟨by decide, by decide,
   C7_already_unlocked_no_write envB "eth4" "0x8086\n" "0x154d\n" 7
     rfl rfl rfl (by decide) (by decide) (by decide)⟩

/-- C8: a missing argument prints the usage line to standard output and
exits 255; a failure to read either attribute file exits 2; an
unrecognized device exits 3 — all before any accessor invocation. -/
theorem C8_pre_patch_exit_codes (env : Env) :
    (env.arg = none → run env = ⟨255, [], [usageLine env.progName]⟩) ∧
    (∀ intf, env.arg = some intf → (env.vendorFile = none ∨ env.deviceFile = none) →
       run env = ⟨2, [], ["Can\x27t read interface data."]⟩) ∧
    (∀ intf vRaw dRaw, env.arg = some intf → env.vendorFile = some vRaw →
       env.deviceFile = some dRaw →
       unrecognizedGuard (pyStrip vRaw) (pyStrip dRaw) = true →
       run env = ⟨3, [], ["Not a recognized Intel x520 card."]⟩) :=
  ⟨fun h => run_arg_none env h,
   fun intf h h2 => run_ident_fail env intf h h2,
   fun intf vRaw dRaw h h2 h3 h4 => run_unrecognized env intf vRaw dRaw h h2 h3 h4⟩

/-- C8 witness: the theorem applied to three concrete runs, one per
pre-patch failure kind. -/
theorem C8_pre_patch_exit_codes_witness :
    run envNoArg = ⟨255, [], [usageLine "./patch.py"]⟩ ∧
    run envNoFiles = ⟨2, [], ["Can\x27t read interface data."]⟩ ∧
    run envUnrec = ⟨3, [], ["Not a recognized Intel x520 card."]⟩ :=
  ⟨(C8_pre_patch_exit_codes envNoArg).1 rfl,
   (C8_pre_patch_exit_codes envNoFiles).2.1 "eth4" rfl (Or.inl rfl),
   (C8_pre_patch_exit_codes envUnrec).2.2 "eth4" "0x8086\n" "0x10c6\n"
     rfl rfl rfl (by decide)⟩

/-- C9: for the parsed byte value of any run that reaches the write step,
the two policy guards are exhaustive and mutually exclusive, the decision
is defined, and the written value is the read value with bit 0 set. -/
theorem C9_guards_exhaustive (env : Env) (b : Nat) (intf m off : String) (v l : Nat)
    (hb : readValue? env = some b)
    (hmem : Event.writeEeprom intf m off v l ∈ (run env).events) :
    ((b &&& 1 = 1 ∧ ¬ b &&& 1 = 0) ∨ (b &&& 1 = 0 ∧ ¬ b &&& 1 = 1)) ∧
    (decision b).isSome = true ∧
    decision b = some PatchDecision.needsPatch ∧ v = patch b ∧ v &&& 1 = 1 := by
  rcases run_shape env with ⟨hev, _⟩ | ⟨i, _, hev, _⟩ |
    ⟨i, vR, dR, b2, _, _, _, hrv, h8, hev, _⟩
  · rw [hev] at hmem
    exact absurd hmem (List.not_mem_nil _)
  · rw [hev] at hmem
    simp [readEv] at hmem
  · rw [hev] at hmem
    simp only [List.mem_cons, List.not_mem_nil, or_false, readEv] at hmem
    rcases hmem with hmem | hmem
    · exact absurd hmem (by simp)
    · injection hmem with e1 e2 e3 e4 e5
      rw [hb] at hrv
      injection hrv with hb2
      subst hb2
      refine ⟨Or.inr ⟨h8, by omega⟩, decision_isSome b, (decision_needs b).mpr h8, e4, ?_⟩
      rw [e4]
      exact patch_and_one b

/-- C9 witness: the theorem applied to a concrete run whose read byte is
0x00 and whose write carries 0x01. -/
theorem C9_guards_exhaustive_witness :
    readValue? envA = some 0 ∧
    (((0 &&& 1 = 1 ∧ ¬ (0 : Nat) &&& 1 = 0) ∨ ((0 : Nat) &&& 1 = 0 ∧ ¬ (0 : Nat) &&& 1 = 1)) ∧
     (decision 0).isSome = true ∧
     decision 0 = some PatchDecision.needsPatch ∧ 1 = patch 0 ∧ (1 : Nat) &&& 1 = 1) :=
  ⟨by decide,
   C9_guards_exhaustive envA 0 "eth4" "0x10fb8086" "0x58" 1 1 (by decide) (by decide)⟩

/-- C10 counterexample: a read output whose last token parses to the
out-of-range odd value 0x101 does not reach the write command: bit 0 of
0x101 is set, so the run takes the already-unlocked path and exits 1,
contradicting the claim that every parsed value above 0xFF proceeds to
the write command. -/
theorem C10_counterexample :
    readValue? env257 = some 257 ∧ (255 : Nat) < 257 ∧
    env257.vendorFile.map pyStrip = some "0x8086" ∧
    env257.deviceFile.map pyStrip = some "0x10fb" ∧
    (run env257).exitCode = 1 ∧
    (run env257).events = [readEv "eth4"] ∧
    (readEv "eth4").isWrite = false := by decide

/-- C10 amended: a parsed value above 0xFF is never rejected by any range
check; when its bit 0 is clear, the run proceeds to the write command
with value b OR 1, itself still above 0xFF. -/
theorem C10_no_range_check (env : Env) (intf vRaw dRaw : String) (b : Nat)
    (h : env.arg = some intf) (h2 : env.vendorFile = some vRaw)
    (h3 : env.deviceFile = some dRaw)
    (h4 : unrecognizedGuard (pyStrip vRaw) (pyStrip dRaw) = false)
    (h5 : readValue? env = some b) (hbig : 255 < b) (heven : b &&& 1 = 0) :
    (run env).exitCode = 0 ∧
    (run env).events = [readEv intf,
      Event.writeEeprom intf (magic (pyStrip dRaw) (pyStrip vRaw)) "0x58" (patch b) 1] ∧
    255 < patch b := by
  obtain ⟨out, tok, hrr, het, hpv⟩ := readValue_elim env b h5
  obtain ⟨he, hev⟩ := run_patch_path env intf vRaw dRaw out tok b h h2 h3 h4 hrr het hpv heven
  refine ⟨he, hev, ?_⟩
  have hp : patch b = b + 1 := lor_one_of_even b heven
  omega

/-- C10 witness: the amended theorem applied to a concrete run that reads
the even out-of-range value 0x100 and writes 0x101. -/
theorem C10_no_range_check_witness :
    readValue? env256 = some 256 ∧ (255 : Nat) < 256 ∧ (256 : Nat) &&& 1 = 0 ∧
    ((run env256).exitCode = 0 ∧
     (run env256).events = [readEv "eth4",
       Event.writeEeprom "eth4" "0x10fb8086" "0x58" 257 1] ∧
     255 < patch 256) :=
  ⟨by decide, by decide, by decide,
   C10_no_range_check env256 "eth4" "0x8086\n" "0x10fb\n" 256
     rfl rfl rfl (by decide) (by decide) (by decide) (by decide)⟩

end X520
